import Mathlib

set_option maxHeartbeats 1000000
set_option maxRecDepth 10000

/-!
Verification of the backup-catalog search wrapper.

The program under test is backup_exec_api.py: it builds a PowerShell script as
a single string (a statement list joined with "; "), hands it to an external
PowerShell process, and parses the JSON on the standard output of that process
into an HTTP response.

Two artifacts are modelled. First, the script string itself, transcribed
literally, so that facts about what the single joined line contains can be
settled: because the join inserts no newlines, the first "#" element turns the
rest of the line into one comment, and none of the search orchestration in the
script text ever executes. Second, the Python layer from the external
invocation on, as executable functions of the exit code and captured output.

Strings of the modelled languages are embedded as `List Char`.
-/

namespace BackupSearch

/-- Characters of a string literal; Python and PowerShell strings are modelled as lists of characters. -/
def chars (s : String) : List Char := s.data

/-- JSON values as produced by the Python json module; numbers keep their source
text, which no claim inspects. -/
inductive Json
| null : Json
| bool : Bool → Json
| num : List Char → Json
| str : List Char → Json
| arr : List Json → Json
| obj : List (List Char × Json) → Json

/-- The whitespace characters the Python json scanner skips between tokens. -/
def isJsonWs (c : Char) : Bool := c == ' ' || c == '\t' || c == '\n' || c == '\r'

/-- Skip inter-token whitespace. -/
def skipWs (s : List Char) : List Char := s.dropWhile isJsonWs

/-- Single-character JSON string escapes. -/
def escChar (e : Char) : Option Char :=
  if e == '"' then some '"'
  else if e == '\\' then some '\\'
  else if e == '/' then some '/'
  else if e == 'n' then some '\n'
  else if e == 't' then some '\t'
  else if e == 'r' then some '\r'
  else if e == 'b' then some (Char.ofNat 8)
  else if e == 'f' then some (Char.ofNat 12)
  else none

/-- Value of one hexadecimal digit. -/
def hexVal (c : Char) : Option Nat :=
  if '0' ≤ c ∧ c ≤ '9' then some (c.toNat - 48)
  else if 'a' ≤ c ∧ c ≤ 'f' then some (c.toNat - 87)
  else if 'A' ≤ c ∧ c ≤ 'F' then some (c.toNat - 55)
  else none

/-- Body of a JSON string after the opening quote: the decoded characters and the
input after the closing quote. Unescaped control characters are rejected, as by
the strict Python decoder. Surrogate-pair recombination is not modelled. -/
def parseStringBody : List Char → Option (List Char × List Char)
  | [] => none
  | '"' :: rest => some ([], rest)
  | '\\' :: 'u' :: h1 :: h2 :: h3 :: h4 :: rest =>
    match hexVal h1, hexVal h2, hexVal h3, hexVal h4 with
    | some a, some b, some c, some d =>
      (parseStringBody rest).map (fun pr => (Char.ofNat (((a * 16 + b) * 16 + c) * 16 + d) :: pr.1, pr.2))
    | _, _, _, _ => none
  | '\\' :: e :: rest =>
    match escChar e with
    | some c => (parseStringBody rest).map (fun pr => (c :: pr.1, pr.2))
    | none => none
  | c :: rest =>
    if c.toNat < 32 then none
    else (parseStringBody rest).map (fun pr => (c :: pr.1, pr.2))

/-- A JSON number: optional minus, an integer part without leading zeros, an
optional fraction and an optional exponent; the raw text is kept. -/
def parseNumber (s : List Char) : Option (List Char × List Char) :=
  let f : List Char × List Char := match s with
    | '-' :: r => (['-'], r)
    | _ => ([], s)
  match f.2 with
  | [] => none
  | c :: r =>
    if c == '0' ∨ ¬ c.isDigit then
      if c == '0' then some (f.1 ++ ['0'], r) else none
    else
      some (f.1 ++ (c :: r.takeWhile Char.isDigit), r.dropWhile Char.isDigit)
    |>.bind (fun pr =>
      match pr.2 with
      | '.' :: r2 =>
        let ds := r2.takeWhile Char.isDigit
        if ds = [] then none else some (pr.1 ++ '.' :: ds, r2.dropWhile Char.isDigit)
      | _ => some pr)
    |>.bind (fun pr =>
      match pr.2 with
      | e :: r2 =>
        if e == 'e' ∨ e == 'E' then
          let g : List Char × List Char := match r2 with
            | '+' :: r3 => (['+'], r3)
            | '-' :: r3 => (['-'], r3)
            | _ => ([], r2)
          let ds := g.2.takeWhile Char.isDigit
          if ds = [] then none
          else some (pr.1 ++ e :: g.1 ++ ds, g.2.dropWhile Char.isDigit)
        else some pr
      | _ => some pr)

/-- Remaining elements of a JSON array after the first, given the element
reader pv; fuel bounds the number of elements. -/
def parseArrRest (pv : List Char → Option (Json × List Char)) :
    Nat → List Json → List Char → Option (Json × List Char)
  | 0, _, _ => none
  | n+1, acc, s =>
    match skipWs s with
    | ']' :: r => some (Json.arr acc.reverse, r)
    | ',' :: r =>
      match pv r with
      | some (v, r2) => parseArrRest pv n (v :: acc) r2
      | none => none
    | _ => none

/-- One key-value member of a JSON object, given the value reader pv. -/
def parseMember (pv : List Char → Option (Json × List Char)) (s : List Char) :
    Option ((List Char × Json) × List Char) :=
  match skipWs s with
  | '"' :: r =>
    match parseStringBody r with
    | some (k, r2) =>
      match skipWs r2 with
      | ':' :: r3 =>
        match pv r3 with
        | some (v, r4) => some ((k, v), r4)
        | none => none
      | _ => none
    | none => none
  | _ => none

/-- Remaining members of a JSON object after the first, given the value reader pv. -/
def parseObjRest (pv : List Char → Option (Json × List Char)) :
    Nat → List (List Char × Json) → List Char → Option (Json × List Char)
  | 0, _, _ => none
  | n+1, acc, s =>
    match skipWs s with
    | '}' :: r => some (Json.obj acc.reverse, r)
    | ',' :: r =>
      match parseMember pv r with
      | some (kv, r2) => parseObjRest pv n (kv :: acc) r2
      | none => none
    | _ => none

/-- One JSON value and the remaining input; fuel bounds nesting and repetition.
The nonstandard NaN and Infinity literals the Python decoder also accepts are
not modelled. -/
def parseVal : Nat → List Char → Option (Json × List Char)
  | 0, _ => none
  | n+1, s =>
    match skipWs s with
    | '"' :: r => (parseStringBody r).map (fun pr => (Json.str pr.1, pr.2))
    | '[' :: r =>
      (match skipWs r with
       | ']' :: r2 => some (Json.arr [], r2)
       | _ =>
         match parseVal n r with
         | some (v, r2) => parseArrRest (parseVal n) n [v] r2
         | none => none)
    | '{' :: r =>
      (match skipWs r with
       | '}' :: r2 => some (Json.obj [], r2)
       | _ =>
         match parseMember (parseVal n) r with
         | some (kv, r2) => parseObjRest (parseVal n) n [kv] r2
         | none => none)
    | 't' :: 'r' :: 'u' :: 'e' :: r => some (Json.bool true, r)
    | 'f' :: 'a' :: 'l' :: 's' :: 'e' :: r => some (Json.bool false, r)
    | 'n' :: 'u' :: 'l' :: 'l' :: r => some (Json.null, r)
    | s2 => (parseNumber s2).map (fun pr => (Json.num pr.1, pr.2))

/-- Model of json.loads: parse one document and require only whitespace after it. -/
def jsonLoads (s : List Char) : Option Json :=
  match parseVal (s.length + 1) s with
  | some (v, rest) => if skipWs rest = [] then some v else none
  | none => none

/-- The whitespace set of the Python str.strip call. -/
def isPyWs (c : Char) : Bool :=
  c == ' ' || c == '\t' || c == '\n' || c == '\r' || c == '\x0b' || c == '\x0c'

/-- Model of Python str.strip: drop whitespace from both ends. -/
def stripChars (s : List Char) : List Char :=
  (((s.dropWhile isPyWs).reverse).dropWhile isPyWs).reverse

/-- Model of lines 247 to 249: the index of the first opening bracket or brace in
the output, the minimum of the two find results. -/
def firstBracket (s : List Char) : Option Nat :=
  s.findIdx? (fun c => c == '[' || c == '{')

/-- Key lookup in a parsed JSON object; a later duplicate wins, as in the Python
dict json.loads builds. -/
def objLookup (kvs : List (List Char × Json)) (k : List Char) : Option Json :=
  (kvs.reverse.find? (fun kv => kv.1 == k)).map (fun kv => kv.2)

/-- Model of lines 272 to 286: take the results field of a parsed object when
present, then normalize to a list, with null becoming the empty list and any
other non-list payload wrapped as a singleton. -/
def extractResults (parsed : Json) : List Json :=
  let payload :=
    match parsed with
    | Json.obj kvs =>
      match objLookup kvs (chars "results") with
      | some v => v
      | none => parsed
    | _ => parsed
  match payload with
  | Json.arr xs => xs
  | Json.null => []
  | v => [v]

/-- Decimal rendering of an integer, as the Python format of the exit code. -/
def intChars (i : Int) : List Char :=
  if i < 0 then '-' :: Nat.toDigits 10 i.natAbs else Nat.toDigits 10 i.toNat

/-- The value search_catalog returns: overall success, result entries, and the
error message on failure. The diagnostics field is not modelled. -/
structure SearchOutcome where
  success : Bool
  results : List Json
  error : Option (List Char)

/-- Model of search_catalog from the external invocation on, lines 227 to 292 of
backup_exec_api.py, as a function of the exit code, standard output and standard
error of the PowerShell process. -/
def searchOutcome (code : Int) (out err : List Char) : SearchOutcome :=
  if code ≠ 0 then
    ⟨false, [],
     some (if stripChars err ≠ [] then stripChars err
           else chars "PowerShell exited with code " ++ intChars code)⟩
  else
    let stdout := stripChars out
    if stdout = [] then ⟨true, [], none⟩
    else
      match jsonLoads stdout with
      | some parsed => ⟨true, extractResults parsed, none⟩
      | none =>
        match firstBracket stdout with
        | some i =>
          match jsonLoads (stdout.drop i) with
          | some parsed => ⟨true, extractResults parsed, none⟩
          | none => ⟨false, [], some (chars "Failed to parse JSON from PowerShell output.")⟩
        | none => ⟨false, [], some (chars "No JSON output from PowerShell.")⟩

/-- The payload and status code the /search route builds from a search outcome,
lines 317 to 325 of backup_exec_api.py. -/
structure HttpResponse where
  status : Nat
  success : Bool
  count : Nat
  results : List Json
  error : Option (List Char)

/-- Model of the route serialization: 200 on success and 500 otherwise, with the
count field set to the length of the results list. -/
def httpSearchResponse (o : SearchOutcome) : HttpResponse :=
  ⟨if o.success then 200 else 500, o.success, o.results.length, o.results, o.error⟩

/-- Model of the recurse and isdir query-parameter treatment on lines 308 and 309:
the value, defaulted to "false" when the parameter is absent, is lowercased and
compared against the four accepted literals. -/
def parseBoolParam (v : Option (List Char)) : Bool :=
  let s := (match v with | none => chars "false" | some s => s).map Char.toLower
  s == chars "1" || s == chars "true" || s == chars "yes" || s == chars "on"

/-- Model of the escape helper on lines 18 to 23 of backup_exec_api.py: double
every single quote. -/
def escapePS (s : List Char) : List Char :=
  s.flatMap (fun c => if c = '\x27' then ['\x27', '\x27'] else [c])

/-- Join a list of strings with a separator, as the Python str.join call. -/
def joinSep (sep : List Char) : List (List Char) → List Char
  | [] => []
  | [x] => x
  | x :: xs => x ++ sep ++ joinSep sep xs

/-- Faithful transcription of the lines list built by _build_powershell_script,
lines 44 to 163 of backup_exec_api.py, as a function of the request fields. The
module path is the hardcoded default of line 15 (a raw-string literal, so each
separator is two backslash characters); an absent agent is the empty string. -/
def scriptLines (path agent : List Char) (recurse pathIsDir : Bool) : List (List Char) :=
  [chars "$ErrorActionPreference = \x27Stop\x27",
   chars "$ProgressPreference = \x27SilentlyContinue\x27",
   chars "$modulePath = \x27" ++ chars "C:\\\\Program Files\\\\Veritas\\\\Backup Exec\\\\Modules\\\\PowerShell3\\\\BEMCLI" ++ chars "\x27",
   chars "# Diagnostics container",
   chars "$diag = [ordered]@\x7b\x7d",
   chars "$diag.PSVersion = $PSVersionTable.PSVersion.ToString()",
   chars "$diag.PSEdition = $PSVersionTable.PSEdition",
   chars "$diag.MachineName = $env:COMPUTERNAME",
   chars "# Import BEMCLI with robust fallbacks",
   chars "$diag.moduleImport = [ordered]@\x7b tried=$modulePath; attempts=@(); psModulePath=$env:PSModulePath \x7d",
   chars "$moduleAttempts = @()",
   chars "function Add-ImportAttempt([string]$name, [scriptblock]$block) \x7b",
   chars "  $a = [ordered]@\x7b name=$name; success=$true \x7d",
   chars "  try \x7b & $block \x7d catch \x7b $a.success=$false; $a.error=$_.Exception.Message \x7d",
   chars "  $m = Get-Module BEMCLI -ErrorAction SilentlyContinue",
   chars "  if ($m) \x7b $a.loadedPath=$m.Path; $a.version=$m.Version.ToString() \x7d",
   chars "  $script:moduleAttempts += [pscustomobject]$a",
   chars "  return [bool]$m",
   chars "\x7d",
   chars "# 1) Explicit path (hardcoded) — try manifest then folder",
   chars "if ($modulePath -and (Test-Path $modulePath)) \x7b",
   chars "  $manifest = Join-Path $modulePath \x27BEMCLI.psd1\x27",
   chars "  if (Test-Path $manifest) \x7b Add-ImportAttempt \x27explicitManifest\x27 \x7b Import-Module $manifest -Force \x7d | Out-Null \x7d",
   chars "  if (-not (Get-Module BEMCLI -ErrorAction SilentlyContinue)) \x7b Add-ImportAttempt \x27explicitFolder\x27 \x7b Import-Module $modulePath -Force \x7d | Out-Null \x7d",
   chars "\x7d",
   chars "# 2) By name (if BEMCLI is on PSModulePath)",
   chars "if (-not (Get-Module BEMCLI -ErrorAction SilentlyContinue)) \x7b Add-ImportAttempt \x27byName\x27 \x7b Import-Module BEMCLI -Force \x7d | Out-Null \x7d",
   chars "# 3) Registry install path",
   chars "$install = ($null)",
   chars "try \x7b $install = (Get-ItemProperty \x27HKLM:\\SOFTWARE\\Veritas\\Backup Exec\\Server\x27 -ErrorAction SilentlyContinue).InstallPath \x7d catch \x7b\x7d",
   chars "if (-not $install) \x7b try \x7b $install = (Get-ItemProperty \x27HKLM:\\SOFTWARE\\WOW6432Node\\Veritas\\Backup Exec\\Server\x27 -ErrorAction SilentlyContinue).InstallPath \x7d catch \x7b\x7d \x7d",
   chars "if ($install) \x7b $cand = Join-Path $install \x27Modules\\PowerShell3\\BEMCLI\x27; if (Test-Path $cand) \x7b Add-ImportAttempt \x27registryPath\x27 \x7b Import-Module $cand -Force \x7d | Out-Null \x7d \x7d",
   chars "# 4) Common Program Files locations",
   chars "$pfBases = @($env:ProgramFiles, $\x7benv:ProgramFiles(x86)\x7d, $env:ProgramW6432) | Where-Object \x7b $_ -and (Test-Path $_) \x7d",
   chars "foreach ($base in $pfBases) \x7b $cand = Join-Path $base \x27Veritas\\Backup Exec\\Modules\\PowerShell3\\BEMCLI\x27; if (Test-Path $cand) \x7b Add-ImportAttempt (\x27programfiles:\x27 + $base) \x7b Import-Module $cand -Force \x7d | Out-Null; if (Get-Module BEMCLI) \x7b break \x7d \x7d \x7d",
   chars "$mod = Get-Module BEMCLI -ErrorAction SilentlyContinue",
   chars "$diag.moduleImport.success = [bool]$mod",
   chars "$diag.moduleImport.loadedPath = $mod.Path",
   chars "$diag.moduleImport.version = if ($mod) \x7b $mod.Version.ToString() \x7d else \x7b $null \x7d",
   chars "$diag.moduleImport.attempts = $moduleAttempts",
   chars "$queryPath = \x27" ++ escapePS path ++ chars "\x27",
   chars "$agentName = \x27" ++ (if agent = [] then [] else escapePS agent) ++ chars "\x27",
   chars "$diag.queryPath = $queryPath",
   chars "$diag.agentRequested = $agentName",
   chars "$diag.identity = [System.Security.Principal.WindowsIdentity]::GetCurrent().Name",
   chars "$diag.hasSearchBECatalog = [bool](Get-Command Search-BECatalog -ErrorAction SilentlyContinue)",
   chars "$recurse = $" ++ (if recurse then chars "true" else chars "false"),
   chars "$pathIsDir = $" ++ (if pathIsDir then chars "true" else chars "false"),
   chars "$diag.recurse = $recurse",
   chars "$diag.pathIsDirectory = $pathIsDir",
   chars "# Determine patterns to try",
   chars "$pathsToTry = @()",
   chars "$pathsToTry += $queryPath",
   chars "if (-not ($queryPath -match \x27[*?]\x27) -and $queryPath -ne \x27\x27) \x7b",
   chars "  $pathsToTry += ($queryPath + \x27*\x27)",
   chars "  $pathsToTry += (\x27*\x27 + $queryPath + \x27*\x27)",
   chars "\x7d",
   chars "if ($queryPath -eq \x27\x27) \x7b $pathsToTry = @(\x27*\x27) \x7d",
   chars "# Also try drive-less and basename patterns (e.g., \x27D:\\toBackup\x27 -> \x27toBackup*\x27)",
   chars "$drvLess = $queryPath -replace \x27^[A-Za-z]:\\\x27,\x27\x27",
   chars "if ($drvLess -and $drvLess -ne $queryPath) \x7b",
   chars "  $pathsToTry += $drvLess",
   chars "  if (-not ($drvLess -match \x27[*?]\x27)) \x7b $pathsToTry += ($drvLess + \x27*\x27) \x7d",
   chars "\x7d",
   chars "# UNC form: \\server\\share\\folder -> share\\folder",
   chars "if ($queryPath.StartsWith(\x27\\\\\x27)) \x7b",
   chars "  $uncLess = $queryPath -replace \x27^\\\\[^\\]+\\\x27,\x27\x27",
   chars "  if ($uncLess) \x7b",
   chars "    $pathsToTry += $uncLess",
   chars "    if (-not ($uncLess -match \x27[*?]\x27)) \x7b $pathsToTry += ($uncLess + \x27*\x27) \x7d",
   chars "  \x7d",
   chars "\x7d",
   chars "$leaf = Split-Path $queryPath -Leaf",
   chars "if ($leaf -and -not ($leaf -match \x27[*?]\x27)) \x7b $pathsToTry += ($leaf + \x27*\x27) \x7d",
   chars "$pathsToTry = $pathsToTry | Where-Object \x7b $_ -and $_.Trim() -ne \x27\x27 \x7d | Select-Object -Unique",
   chars "$diag.pathsToTry = $pathsToTry",
   chars "# Collect available agents (names only)",
   chars "try \x7b $diag.agentsAvailable = (Get-BEAgentServer | Select-Object -ExpandProperty Name) \x7d catch \x7b $diag.agentsAvailable = @(); \x7d",
   chars "# Basic environment validation",
   chars "try \x7b $diag.backupSetCount = (Get-BEBackupSet | Measure-Object).Count \x7d catch \x7b $diag.backupSetCount = $null \x7d",
   chars "try \x7b $diag.sampleJob = (Get-BEJob | Select-Object -First 1 -ExpandProperty Name) \x7d catch \x7b $diag.sampleJob = $null \x7d",
   chars "$resultsAll = @()",
   chars "$attempts = @()",
   chars "$from = (Get-Date).AddYears(-20)",
   chars "$to = (Get-Date).AddDays(1)",
   chars "function Invoke-BECatalogSearch([string]$p, $server, [bool]$dir=$pathIsDir) \x7b",
   chars "  if ($recurse -and $dir) \x7b return $server | Search-BECatalog -Path $p -Recurse -PathIsDirectory -FromBackupTime $from -ToBackupTime $to \x7d",
   chars "  elseif ($recurse) \x7b return $server | Search-BECatalog -Path $p -Recurse -FromBackupTime $from -ToBackupTime $to \x7d",
   chars "  elseif ($dir) \x7b return $server | Search-BECatalog -Path $p -PathIsDirectory -FromBackupTime $from -ToBackupTime $to \x7d",
   chars "  else \x7b return $server | Search-BECatalog -Path $p -FromBackupTime $from -ToBackupTime $to \x7d",
   chars "\x7d",
   chars "function Add-Attempt([string]$name, [string]$pattern, [scriptblock]$block) \x7b",
   chars "  $a = [ordered]@\x7b name=$name; pattern=$pattern; success=$true; count=0 \x7d",
   chars "  try \x7b",
   chars "    $r = & $block",
   chars "    if ($r) \x7b $arr = @($r); $resultsAll += $arr; $a.count = $arr.Count \x7d",
   chars "  \x7d catch \x7b",
   chars "    $a.success = $false; $a.error = $_.Exception.Message",
   chars "  \x7d",
   chars "  $attempts += [pscustomobject]$a",
   chars "\x7d",
   chars "$dirToggles = @($pathIsDir); if (-not $pathIsDir) \x7b $dirToggles += $true \x7d",
   chars "foreach ($p in $pathsToTry) \x7b",
   chars "  foreach ($dir in $dirToggles) \x7b",
   chars "    if ($diag.moduleImport.success -and $agentName) \x7b",
   chars "      $server = $null",
   chars "      try \x7b $server = Get-BEAgentServer -Name $agentName \x7d catch \x7b\x7d",
   chars "      if ($server) \x7b Add-Attempt (\x27agent_dir=\x27 + $dir) $p \x7b Invoke-BECatalogSearch -p $p -server $server -dir $dir \x7d \x7d",
   chars "      else \x7b $attempts += [pscustomobject]@\x7b name=\x27agent_lookup\x27; pattern=$p; success=$false; error=\x27Agent not found\x27 \x7d \x7d",
   chars "    \x7d",
   chars "    Add-Attempt (\x27all_agents_dir=\x27 + $dir) $p \x7b Get-BEAgentServer | ForEach-Object \x7b Invoke-BECatalogSearch -p $p -server $_ -dir $dir \x7d \x7d",
   chars "  \x7d",
   chars "\x7d",
   chars "$diag.attempts = $attempts",
   chars "# Emit diagnostics to stderr too for visibility",
   chars "$diagJson = [pscustomobject]@\x7b diagnostics = $diag; resultsCount = @($resultsAll).Count \x7d | ConvertTo-Json -Depth 6",
   chars "[Console]::Error.WriteLine($diagJson)",
   chars "[pscustomobject]@\x7b diagnostics = $diag; results = @($resultsAll) \x7d | ConvertTo-Json -Depth 6"]

/-- Model of line 165 of backup_exec_api.py: the script string the program
writes to the temporary .ps1 file is the statement list joined with "; ",
yielding one physical line. -/
def builtScript (path agent : List Char) (recurse pathIsDir : Bool) : List Char :=
  joinSep (chars "; ") (scriptLines path agent recurse pathIsDir)

/-! Theorems settling the claims. -/

/-- Counterexample to C3 as stated: exit code 0 with empty standard output is
treated as overall success with no entries and served as HTTP 200, not as the
failure with HTTP 500 the claim requires for empty output. -/
theorem empty_stdout_success_cex :
    (searchOutcome 0 [] []).success = true ∧
    (searchOutcome 0 [] []).results = [] ∧
    (searchOutcome 0 [] []).error = none ∧
    (httpSearchResponse (searchOutcome 0 [] [])).status = 200 :=
  ⟨rfl, rfl, rfl, rfl⟩

/-- C3 (amended): with exit code 0, empty or whitespace-only standard output
yields success with no entries; nonempty output that parses neither directly
nor from the first bracket is a failure served as HTTP 500 with the distinct
message "No JSON output from PowerShell." when no bracket exists, and "Failed
to parse JSON from PowerShell output." when parsing from the first bracket
fails. -/
theorem parse_failure_amended (out err : List Char) :
    (stripChars out = [] → searchOutcome 0 out err = ⟨true, [], none⟩) ∧
    (stripChars out ≠ [] → jsonLoads (stripChars out) = none →
      (firstBracket (stripChars out) = none →
        (searchOutcome 0 out err).success = false ∧
        (searchOutcome 0 out err).results = [] ∧
        (searchOutcome 0 out err).error = some (chars "No JSON output from PowerShell.") ∧
        (httpSearchResponse (searchOutcome 0 out err)).status = 500) ∧
      (∀ i : Nat, firstBracket (stripChars out) = some i →
        jsonLoads ((stripChars out).drop i) = none →
        (searchOutcome 0 out err).success = false ∧
        (searchOutcome 0 out err).results = [] ∧
        (searchOutcome 0 out err).error = some (chars "Failed to parse JSON from PowerShell output.") ∧
        (httpSearchResponse (searchOutcome 0 out err)).status = 500)) := by
  constructor
  · intro h0
    simp [searchOutcome, h0]
  · intro h1 h2
    constructor
    · intro h3
      simp [searchOutcome, httpSearchResponse, h1, h2, h3]
    · intro i h3 h4
      simp [searchOutcome, httpSearchResponse, h1, h2, h3, h4]

/-- Witness for C3 (amended) on output with no bracket at all. -/
theorem parse_failure_amended_witness :
    (searchOutcome 0 (chars "garbage") []).success = false ∧
    (searchOutcome 0 (chars "garbage") []).error = some (chars "No JSON output from PowerShell.") ∧
    (httpSearchResponse (searchOutcome 0 (chars "garbage") [])).status = 500 := by
  have h := ((parse_failure_amended (chars "garbage") []).2 (by decide) (by rfl)).1 (by rfl)
  exact ⟨h.1, h.2.2.1, h.2.2.2⟩

/-- C8: when direct parsing of the nonempty stripped output fails but a JSON
document starts at the first bracket or brace, the outcome is a success whose
results are extracted from the document parsed there. -/
theorem parse_recovery (out err : List Char) (i : Nat) (v : Json)
    (h1 : stripChars out ≠ []) (h2 : jsonLoads (stripChars out) = none)
    (h3 : firstBracket (stripChars out) = some i)
    (h4 : jsonLoads ((stripChars out).drop i) = some v) :
    (searchOutcome 0 out err).success = true ∧
    (searchOutcome 0 out err).results = extractResults v ∧
    (searchOutcome 0 out err).error = none := by
  simp [searchOutcome, h1, h2, h3, h4]

/-- Witness for C8 on the specified scenario: non-JSON preamble followed by an
object, recovered from the first brace into exactly one entry named "a". -/
theorem parse_recovery_witness :
    (searchOutcome 0 (chars "garbage\x7b\"results\":[\x7b\"Name\":\"a\"\x7d]\x7d") []).success = true ∧
    (searchOutcome 0 (chars "garbage\x7b\"results\":[\x7b\"Name\":\"a\"\x7d]\x7d") []).results =
      [Json.obj [(chars "Name", Json.str (chars "a"))]] ∧
    (searchOutcome 0 (chars "garbage\x7b\"results\":[\x7b\"Name\":\"a\"\x7d]\x7d") []).results.length = 1 := by
  have h := parse_recovery (chars "garbage\x7b\"results\":[\x7b\"Name\":\"a\"\x7d]\x7d") [] 7
    (Json.obj [(chars "results", Json.arr [Json.obj [(chars "Name", Json.str (chars "a"))]])])
    (by decide) (by rfl) (by rfl) (by rfl)
  refine ⟨h.1, ?_, ?_⟩
  · rw [h.2.1]
    rfl
  · rw [h.2.1]
    rfl

/-- C9: a nonzero exit code yields a failed outcome served as HTTP 500 with an
empty results list and error equal to the stripped standard error when
nonempty, otherwise the generic exit-code message. -/
theorem nonzero_exit_failure (code : Int) (out err : List Char) (h : code ≠ 0) :
    (searchOutcome code out err).success = false ∧
    (searchOutcome code out err).results = [] ∧
    (searchOutcome code out err).error =
      some (if stripChars err ≠ [] then stripChars err
            else chars "PowerShell exited with code " ++ intChars code) ∧
    (httpSearchResponse (searchOutcome code out err)).status = 500 := by
  unfold searchOutcome
  rw [if_pos h]
  exact ⟨rfl, rfl, rfl, rfl⟩

/-- Witness for C9 on the specified scenario: exit code 1 with standard error
"module not found". -/
theorem nonzero_exit_failure_witness :
    (searchOutcome 1 [] (chars "module not found")).error = some (chars "module not found") ∧
    (httpSearchResponse (searchOutcome 1 [] (chars "module not found"))).status = 500 := by
  have h := nonzero_exit_failure 1 [] (chars "module not found") (by decide)
  refine ⟨?_, h.2.2.2⟩
  rw [h.2.2.1]
  decide

/-- C10: a boolean query parameter is interpreted as true exactly when its
lowercased value is one of "1", "true", "yes", "on"; an absent parameter, whose
value defaults to "false", yields false, as does any other value. -/
theorem boolParam_spec :
    parseBoolParam none = false ∧
    (∀ s : List Char, parseBoolParam (some s) = true ↔
      (s.map Char.toLower = chars "1" ∨ s.map Char.toLower = chars "true" ∨
       s.map Char.toLower = chars "yes" ∨ s.map Char.toLower = chars "on")) := by
  refine ⟨rfl, ?_⟩
  intro s
  unfold parseBoolParam
  simp only [Bool.or_eq_true, beq_iff_eq]
  tauto

/-- Witness for C10 at the uppercase literal "TRUE" and at "no". -/
theorem boolParam_spec_witness :
    parseBoolParam (some (chars "TRUE")) = true ∧
    ¬ parseBoolParam (some (chars "no")) = true := by
  constructor
  · exact (boolParam_spec.2 (chars "TRUE")).2 (Or.inr (Or.inl (by decide)))
  · intro h
    have h2 := (boolParam_spec.2 (chars "no")).1 h
    rcases h2 with h2 | h2 | h2 | h2 <;> exact absurd h2 (by decide)

/-- C1 (code bug): the program never builds an attempts log. The built script
is one physical line with no newline; its executable text, the part before the
first "#", is exactly the three assignment statements shown, after which the
"#" of the "# Diagnostics container" element starts a comment that runs to the
end of the line and swallows the whole orchestration, including the attempt
loop whose foreach header sits at offset 5684 inside the comment. The process
therefore emits nothing and exits 0, and the Python layer maps that to success
with no entries and no attempts log (lines 238 to 241). Even statement by
statement, the records appended by Add-Attempt on line 144 go to a
function-local variable (no "script:" qualifier, unlike line 61) and are
discarded on return. -/
theorem attempt_loop_commented_out :
    (builtScript (chars "x") (chars "A") false false).takeWhile (fun c => c != '#') =
      chars "$ErrorActionPreference = \x27Stop\x27; $ProgressPreference = \x27SilentlyContinue\x27; $modulePath = \x27C:\\\\Program Files\\\\Veritas\\\\Backup Exec\\\\Modules\\\\PowerShell3\\\\BEMCLI\x27; " ∧
    '\n' ∉ builtScript (chars "x") (chars "A") false false ∧
    ((builtScript (chars "x") (chars "A") false false).drop 5684).take 29 =
      chars "foreach ($p in $pathsToTry) \x7b" ∧
    searchOutcome 0 [] [] = ⟨true, [], none⟩ := by
  refine ⟨by decide, by decide, by decide, rfl⟩

/-- C2 (code bug): entries are never accumulated. The accumulation statement
of Add-Attempt, shown at offset 5419, lies inside the end-of-line comment the
first "#" of the one-line script opens, and even as a statement its
"resultsAll +=" assigns a function-local variable that is discarded on return;
every response therefore has count 0 with an empty attempts log, and the
claimed identity between the response count and the per-attempt match counts
holds only vacuously. -/
theorem entry_accumulation_commented_out :
    (builtScript (chars "x") (chars "") false false).takeWhile (fun c => c != '#') =
      chars "$ErrorActionPreference = \x27Stop\x27; $ProgressPreference = \x27SilentlyContinue\x27; $modulePath = \x27C:\\\\Program Files\\\\Veritas\\\\Backup Exec\\\\Modules\\\\PowerShell3\\\\BEMCLI\x27; " ∧
    '\n' ∉ builtScript (chars "x") (chars "") false false ∧
    ((builtScript (chars "x") (chars "") false false).drop 5419).take 72 =
      chars "    if ($r) \x7b $arr = @($r); $resultsAll += $arr; $a.count = $arr.Count \x7d" ∧
    (httpSearchResponse (searchOutcome 0 [] [])).count = 0 ∧
    (searchOutcome 0 [] []).results = [] := by
  refine ⟨by decide, by decide, by decide, ⟨rfl, rfl⟩⟩

/-- C4 (code bug): the program never produces the variant list. Line 102 of
the script source, which would set the single universal wildcard variant for
the empty path, is commented-out text in the one-line script (offset 3312,
after the first "#"); and if the pipeline did run, line 104 would throw first,
its runtime replace pattern being an invalid regular expression with a
trailing backslash. The invocation emits nothing and the response is success
with no entries. -/
theorem empty_path_variant_line_commented_out :
    (builtScript (chars "") (chars "") false false).takeWhile (fun c => c != '#') =
      chars "$ErrorActionPreference = \x27Stop\x27; $ProgressPreference = \x27SilentlyContinue\x27; $modulePath = \x27C:\\\\Program Files\\\\Veritas\\\\Backup Exec\\\\Modules\\\\PowerShell3\\\\BEMCLI\x27; " ∧
    '\n' ∉ builtScript (chars "") (chars "") false false ∧
    ((builtScript (chars "") (chars "") false false).drop 3312).take 47 =
      chars "if ($queryPath -eq \x27\x27) \x7b $pathsToTry = @(\x27*\x27) \x7d" ∧
    searchOutcome 0 [] [] = ⟨true, [], none⟩ := by
  refine ⟨by decide, by decide, by decide, rfl⟩

/-- C5 (code bug): the wildcard guard of the variant generator (line 98 of
the script source, shown at offset 3184) is commented-out text in the one-line
script, and the derived stripped forms depend on the replace statements of
lines 104 and 111 whose runtime patterns are invalid regular expressions (a
trailing backslash, and an unterminated character class) that would throw
rather than strip; no variant set is ever built or searched for any request. -/
theorem wildcard_guard_commented_out :
    (builtScript (chars "C:\\Data\\Projects\\*") (chars "") false false).takeWhile (fun c => c != '#') =
      chars "$ErrorActionPreference = \x27Stop\x27; $ProgressPreference = \x27SilentlyContinue\x27; $modulePath = \x27C:\\\\Program Files\\\\Veritas\\\\Backup Exec\\\\Modules\\\\PowerShell3\\\\BEMCLI\x27; " ∧
    '\n' ∉ builtScript (chars "C:\\Data\\Projects\\*") (chars "") false false ∧
    ((builtScript (chars "C:\\Data\\Projects\\*") (chars "") false false).drop 3184).take 61 =
      chars "if (-not ($queryPath -match \x27[*?]\x27) -and $queryPath -ne \x27\x27) \x7b" ∧
    searchOutcome 0 [] [] = ⟨true, [], none⟩ := by
  refine ⟨by decide, by decide, by decide, rfl⟩

/-- C6 (code bug): the filter and deduplication stage of the variant
generator (line 119 of the script source, shown at offset 4034) is
commented-out text in the one-line script, so the deduplicated, blank-free
variant list the claim describes is never built; the invocation emits nothing
and the response is success with no entries. -/
theorem variant_filter_commented_out :
    (builtScript (chars "D:\\toBackup") (chars "") false false).takeWhile (fun c => c != '#') =
      chars "$ErrorActionPreference = \x27Stop\x27; $ProgressPreference = \x27SilentlyContinue\x27; $modulePath = \x27C:\\\\Program Files\\\\Veritas\\\\Backup Exec\\\\Modules\\\\PowerShell3\\\\BEMCLI\x27; " ∧
    '\n' ∉ builtScript (chars "D:\\toBackup") (chars "") false false ∧
    ((builtScript (chars "D:\\toBackup") (chars "") false false).drop 4034).take 93 =
      chars "$pathsToTry = $pathsToTry | Where-Object \x7b $_ -and $_.Trim() -ne \x27\x27 \x7d | Select-Object -Unique" ∧
    searchOutcome 0 [] [] = ⟨true, [], none⟩ := by
  refine ⟨by decide, by decide, by decide, rfl⟩

/-- C7 (code bug): the directory-mode toggle computation (line 146 of the
script source, shown at offset 5613) and the search loop that would consume it
are commented-out text in the one-line script, so no toggle value is ever
searched for any request; the invocation emits nothing and the response is
success with no entries. -/
theorem toggle_line_commented_out :
    (builtScript (chars "C:\\Data") (chars "") false false).takeWhile (fun c => c != '#') =
      chars "$ErrorActionPreference = \x27Stop\x27; $ProgressPreference = \x27SilentlyContinue\x27; $modulePath = \x27C:\\\\Program Files\\\\Veritas\\\\Backup Exec\\\\Modules\\\\PowerShell3\\\\BEMCLI\x27; " ∧
    '\n' ∉ builtScript (chars "C:\\Data") (chars "") false false ∧
    ((builtScript (chars "C:\\Data") (chars "") false false).drop 5613).take 74 =
      chars "$dirToggles = @($pathIsDir); if (-not $pathIsDir) \x7b $dirToggles += $true \x7d" ∧
    searchOutcome 0 [] [] = ⟨true, [], none⟩ := by
  refine ⟨by decide, by decide, by decide, rfl⟩

end BackupSearch
